import Mathlib

/-!
Verification development for the openclaw run-lifecycle orchestration layer.

Shallow embedding of:
  * the Discord status-reaction controller's semantic-phase machine
    (`src/discord/monitor/message-handler.process.ts`),
  * the deferred Discord status registry and its agent-event bridge
    (same file),
  * the Discord reaction status machine
    (`src/discord/monitor/reaction-status-machine.ts`),
  * the follow-up queue outcome helpers
    (`resolveQueueOutcomeRunId`, `emitFollowupQueueOutcome`),
  * the schema-refresh retry controller around `runEmbeddedPiAgent`
    (modelled from the spec; the implementation is exercised only by
    its test file here).

Machine integers do not occur; all times are modelled as natural-number
milliseconds on a simulated monotone clock.  External calls (Discord REST
reactions) are modelled by an oracle `Nat → Option String` giving, per
call index, either success (`none`) or a thrown error message (`some e`).
-/

/-! ## Small string helpers (substring search, JS-style truthiness of trim) -/

/-- Substring test on character lists: does `pat` occur inside the list? -/
def hasSubAux (pat : List Char) : List Char → Bool
  | [] => List.isPrefixOf pat []
  | c :: rest => List.isPrefixOf pat (c :: rest) || hasSubAux pat rest

/-- JS `String.prototype.includes`: does `pat` occur inside `s`? -/
def hasSub (s pat : String) : Bool := hasSubAux pat.data s.data

/-- JS `String.prototype.toLowerCase`, restricted to ASCII case mapping. -/
def lowerStr (s : String) : String := String.mk (s.data.map Char.toLower)

/-! ## C1: semantic-phase machine of `createDiscordStatusReactionController` -/

/-- The ordered semantic phases of the Discord status projection
(`DiscordStatusSemanticPhase` in `message-handler.process.ts`). -/
inductive DiscordStatusSemanticPhase
  | queued
  | waiting
  | active
  | terminal
deriving DecidableEq, BEq, Repr, Fintype

open DiscordStatusSemanticPhase in
/-- `DISCORD_STATUS_PHASE_ORDER`: queued=0, waiting=1, active=2, terminal=3. -/
def phaseOrder : DiscordStatusSemanticPhase → Nat
  | queued => 0
  | waiting => 1
  | active => 2
  | terminal => 3

/-- `transitionSemanticPhase` from `message-handler.process.ts` lines 307-318:
returns whether the request is accepted together with the phase afterwards.
When the current phase is `terminal` the function returns
`nextPhase === "terminal"` without assigning; a strictly lower-ordered
target is rejected; otherwise the phase advances to the target. -/
def transitionSemanticPhase (cur next : DiscordStatusSemanticPhase) :
    Bool × DiscordStatusSemanticPhase :=
  if cur = DiscordStatusSemanticPhase.terminal then
    (next == DiscordStatusSemanticPhase.terminal, cur)
  else if phaseOrder next < phaseOrder cur then
    (false, cur)
  else
    (true, next)

/-- The phase reached after one status-transition request. -/
def phaseStep (cur next : DiscordStatusSemanticPhase) : DiscordStatusSemanticPhase :=
  (transitionSemanticPhase cur next).2

/-- The phase reached after a whole sequence of status-transition requests. -/
def applyPhaseRequests (cur : DiscordStatusSemanticPhase)
    (reqs : List DiscordStatusSemanticPhase) : DiscordStatusSemanticPhase :=
  reqs.foldl phaseStep cur

/-- Whether every request of a sequence is accepted, threading the phase. -/
def phaseSeqAccepted : DiscordStatusSemanticPhase →
    List DiscordStatusSemanticPhase → Bool
  | _, [] => true
  | cur, next :: rest =>
    (transitionSemanticPhase cur next).1 && phaseSeqAccepted (phaseStep cur next) rest

theorem phaseOrder_le_phaseStep (cur next : DiscordStatusSemanticPhase) :
    phaseOrder cur ≤ phaseOrder (phaseStep cur next) := by
  cases cur <;> cases next <;> decide

theorem phaseOrder_le_applyPhaseRequests
    (reqs : List DiscordStatusSemanticPhase) :
    ∀ cur, phaseOrder cur ≤ phaseOrder (applyPhaseRequests cur reqs) := by
  induction reqs with
  | nil => intro cur; exact Nat.le_refl _
  | cons next rest ih =>
    intro cur
    exact Nat.le_trans (phaseOrder_le_phaseStep cur next) (ih (phaseStep cur next))

/-- C1: the semantic phase is monotone over every sequence of
status-transition requests; a request whose target phase is lower-ordered
than the current phase is rejected with the state unchanged (the explicit
initial-icon regression path never issues a phase-transition request, so no
exception arises here); the scripted sequence queued→waiting→active→terminal
is fully accepted; and once `terminal` is reached exactly the further
`terminal` requests are accepted, leaving the phase unchanged
(idempotent no-ops). -/
theorem discord_phase_monotonicity :
    (∀ cur next : DiscordStatusSemanticPhase,
        phaseOrder next < phaseOrder cur →
        transitionSemanticPhase cur next = (false, cur)) ∧
    (∀ (reqs : List DiscordStatusSemanticPhase)
        (cur : DiscordStatusSemanticPhase),
        phaseOrder cur ≤ phaseOrder (applyPhaseRequests cur reqs)) ∧
    phaseSeqAccepted DiscordStatusSemanticPhase.queued
      [DiscordStatusSemanticPhase.waiting, DiscordStatusSemanticPhase.active,
       DiscordStatusSemanticPhase.terminal] = true ∧
    phaseSeqAccepted DiscordStatusSemanticPhase.queued
      [DiscordStatusSemanticPhase.active, DiscordStatusSemanticPhase.waiting] = false ∧
    (∀ next : DiscordStatusSemanticPhase,
        transitionSemanticPhase DiscordStatusSemanticPhase.terminal next =
          ((next == DiscordStatusSemanticPhase.terminal),
            DiscordStatusSemanticPhase.terminal)) := by
  refine ⟨?_, ?_, by decide, by decide, ?_⟩
  · intro cur next h
    cases cur <;> cases next <;> first
      | rfl
      | exact absurd h (by decide)
  · intro reqs cur
    exact phaseOrder_le_applyPhaseRequests reqs cur
  · intro next
    cases next <;> rfl

/-- C1 witness: the rejection clause applied at the concrete lower-ordered
request active→waiting. -/
theorem discord_phase_monotonicity_witness :
    transitionSemanticPhase DiscordStatusSemanticPhase.active
      DiscordStatusSemanticPhase.waiting =
      (false, DiscordStatusSemanticPhase.active) :=
  discord_phase_monotonicity.1 DiscordStatusSemanticPhase.active
    DiscordStatusSemanticPhase.waiting (by decide)

/-! ## C4, C5: follow-up queue outcome helpers (`resolveQueueOutcomeRunId`,
`emitFollowupQueueOutcome`) -/

/-- The whitespace set of JS `String.prototype.trim` (ASCII fragment;
UUIDs and run identifiers in this codebase are ASCII). -/
def isJsWhitespace (c : Char) : Bool :=
  c = ' ' || c = '\t' || c = '\n' || c = '\r' || c = '\x0b' || c = '\x0c'

/-- Leading- and trailing-whitespace removal on character lists. -/
def jsTrimList (l : List Char) : List Char :=
  ((l.dropWhile isJsWhitespace).reverse.dropWhile isJsWhitespace).reverse

/-- JS `String.prototype.trim`. -/
def jsTrim (s : String) : String := String.mk (jsTrimList s.data)

/-- Payload handed to a follow-up run's `onQueueOutcome` callback. -/
structure QueueOutcomePayload where
  runId : String
  status : String
  reason : String

/-- Observable behaviour of one callback invocation: return normally,
throw synchronously, or return a promise that later resolves or rejects. -/
inductive CbBehavior
  | syncThrow (e : String)
  | syncReturn
  | promiseResolve
  | promiseReject (e : String)

/-- A follow-up run as seen by the queue-outcome helpers: the nested
`run.runId` field and the optional `onQueueOutcome` callback. -/
structure FollowupRun where
  runRunId : Option String
  onQueueOutcome : Option (QueueOutcomePayload → CbBehavior)

/-- `resolveQueueOutcomeRunId`: return the existing trimmed identifier when
truthy, else assign a freshly generated identifier (`crypto.randomUUID()`
is external; the generated value is passed in as `uuid`) and return it.
Returns the identifier together with the (possibly mutated) run. -/
def resolveQueueOutcomeRunId (uuid : String) (r : FollowupRun) :
    String × FollowupRun :=
  match r.runRunId.map jsTrim with
  | some existing =>
    if existing ≠ "" then (existing, r)
    else (uuid, { r with runRunId := some uuid })
  | none => (uuid, { r with runRunId := some uuid })

/-- `emitFollowupQueueOutcome`: invoke the run's callback when present.
The second component is the exception (or unhandled promise rejection)
escaping the call; the source wraps the synchronous invocation in
`try/catch` and attaches `.catch(() => \x7b\x7d)` to a returned promise,
so every branch yields `none`. -/
def emitFollowupQueueOutcome (uuid : String) (r : FollowupRun)
    (status reason : String) : FollowupRun × Option String :=
  match r.onQueueOutcome with
  | none => (r, none)
  | some handler =>
    let resolved := resolveQueueOutcomeRunId uuid r
    match handler { runId := resolved.1, status := status, reason := reason } with
    | CbBehavior.syncThrow _ => (resolved.2, none)
    | CbBehavior.syncReturn => (resolved.2, none)
    | CbBehavior.promiseResolve => (resolved.2, none)
    | CbBehavior.promiseReject _ => (resolved.2, none)

/-- C4: `resolveQueueOutcomeRunId` returns the run's existing trimmed
identifier whenever that trimmed identifier is non-empty and leaves the run
unchanged; otherwise it returns the generated identifier and assigns it to
the run; and (generated identifiers being non-empty and whitespace-free)
calling it twice on the same run returns the same identifier both times and
leaves the run stable after the first call. -/
theorem resolve_queue_outcome_run_id_stable :
    (∀ (uuid : String) (r : FollowupRun) (s : String),
        r.runRunId = some s → jsTrim s ≠ "" →
        resolveQueueOutcomeRunId uuid r = (jsTrim s, r)) ∧
    (∀ (uuid : String) (r : FollowupRun),
        (r.runRunId = none ∨ ∃ s, r.runRunId = some s ∧ jsTrim s = "") →
        resolveQueueOutcomeRunId uuid r =
          (uuid, { r with runRunId := some uuid })) ∧
    (∀ (uuid₁ uuid₂ : String) (r : FollowupRun),
        jsTrim uuid₁ = uuid₁ → uuid₁ ≠ "" →
        resolveQueueOutcomeRunId uuid₂ (resolveQueueOutcomeRunId uuid₁ r).2 =
          ((resolveQueueOutcomeRunId uuid₁ r).1,
            (resolveQueueOutcomeRunId uuid₁ r).2)) := by
  refine ⟨?_, ?_, ?_⟩
  · intro uuid r s hs htrim
    simp [resolveQueueOutcomeRunId, hs, htrim]
  · intro uuid r h
    rcases h with hnone | ⟨s, hs, htrim⟩
    · simp [resolveQueueOutcomeRunId, hnone]
    · simp [resolveQueueOutcomeRunId, hs, htrim]
  · intro uuid₁ uuid₂ r htrim hne
    rcases hr : r.runRunId with _ | s
    · simp [resolveQueueOutcomeRunId, hr, htrim, hne]
    · by_cases hs : jsTrim s = ""
      · simp [resolveQueueOutcomeRunId, hr, hs, htrim, hne]
      · simp [resolveQueueOutcomeRunId, hr, hs]

/-- C4 witness: a run with no identifier gets the concrete generated UUID
assigned, and a second call returns the same identifier unchanged. -/
theorem resolve_queue_outcome_run_id_stable_witness :
    resolveQueueOutcomeRunId "u2"
        (resolveQueueOutcomeRunId "123e4567-e89b-12d3-a456-426614174000"
          { runRunId := none, onQueueOutcome := none }).2 =
      ((resolveQueueOutcomeRunId "123e4567-e89b-12d3-a456-426614174000"
          { runRunId := none, onQueueOutcome := none }).1,
        (resolveQueueOutcomeRunId "123e4567-e89b-12d3-a456-426614174000"
          { runRunId := none, onQueueOutcome := none }).2) :=
  resolve_queue_outcome_run_id_stable.2.2
    "123e4567-e89b-12d3-a456-426614174000" "u2"
    { runRunId := none, onQueueOutcome := none } (by decide) (by decide)

/-- C5: `emitFollowupQueueOutcome` never propagates a failure from the
outcome callback: it returns normally (no escaping exception or unhandled
rejection) for every run, and a run without a callback is returned without
effect. -/
theorem emit_followup_queue_outcome_no_throw :
    (∀ (uuid : String) (r : FollowupRun) (status reason : String),
        (emitFollowupQueueOutcome uuid r status reason).2 = none) ∧
    (∀ (uuid : String) (r : FollowupRun) (status reason : String),
        r.onQueueOutcome = none →
        emitFollowupQueueOutcome uuid r status reason = (r, none)) := by
  constructor
  · intro uuid r status reason
    rcases hcb : r.onQueueOutcome with _ | handler
    · simp [emitFollowupQueueOutcome, hcb]
    · simp only [emitFollowupQueueOutcome, hcb]
      rcases handler _ with e | _ | _ | e <;> rfl
  · intro uuid r status reason hcb
    simp [emitFollowupQueueOutcome, hcb]

/-- C5 witness: a run whose callback synchronously throws still lets
`emitFollowupQueueOutcome` return normally, and a callback-free run is
returned untouched. -/
theorem emit_followup_queue_outcome_no_throw_witness :
    (emitFollowupQueueOutcome "u"
        { runRunId := some "rid",
          onQueueOutcome := some fun _ => CbBehavior.syncThrow "boom" }
        "queued" "dispatched").2 = none ∧
    emitFollowupQueueOutcome "u"
        { runRunId := some "rid", onQueueOutcome := none }
        "queued" "dispatched" =
      ({ runRunId := some "rid", onQueueOutcome := none }, none) :=
  ⟨emit_followup_queue_outcome_no_throw.1 "u" _ "queued" "dispatched",
    emit_followup_queue_outcome_no_throw.2 "u" _ "queued" "dispatched" rfl⟩

/-! ## C2: schema-refresh retry controller (spec-modelled) -/

/-- The last assistant turn of an attempt: its stop reason and optional
error text. -/
structure LastAssistant where
  stopReason : String
  errorMessage : Option String

/-- Result of one `runEmbeddedAttempt` call as the retry controller
observes it: an optional top-level prompt error and the optional last
assistant turn. -/
structure AttemptResult where
  promptError : Option String
  lastAssistant : Option LastAssistant

/-- Modelled from the spec: the "unknown tool: <name>" pattern used to
classify a top-level attempt error (`runEmbeddedPiAgent` in the embedded
runner is not under the sources here; only its test file is). -/
def matchesUnknownToolError (msg : String) : Bool :=
  hasSub (lowerStr msg) "unknown tool:"

/-- Modelled from the spec: the `tool "<name>" is not available` pattern
used to classify the last assistant turn's error text. -/
def matchesToolNotAvailable (msg : String) : Bool :=
  hasSub msg "tool \"" && hasSub msg "\" is not available"

/-- The classification source logged by the controller. -/
inductive UnknownToolSource
  | promptError
  | assistantError
deriving DecidableEq, Repr

/-- Modelled from the spec: classification of one attempt as an
unknown-tool failure.  A top-level error is classified by the
unknown-tool pattern and takes precedence; only when no top-level error
exists is the last assistant turn consulted (stop reason `error` and
text matching the tool-not-available pattern). -/
def classifyUnknownTool (r : AttemptResult) : Option UnknownToolSource :=
  match r.promptError with
  | some e =>
    if matchesUnknownToolError e then some UnknownToolSource.promptError else none
  | none =>
    match r.lastAssistant with
    | some la =>
      if la.stopReason = "error" &&
          (match la.errorMessage with
           | some m => matchesToolNotAvailable m
           | none => false) then
        some UnknownToolSource.assistantError
      else none
    | none => none

/-- An attempt result propagates its top-level error when present,
otherwise the run resolves with the result. -/
def finalizeAttempt (r : AttemptResult) : Except String AttemptResult :=
  match r.promptError with
  | some e => Except.error e
  | none => Except.ok r

/-- Modelled from the spec: the schema-refresh retry controller inside
`runEmbeddedPiAgent`.  `attemptFn` is the attempt as a function of the
`refreshToolSchema` flag.  The first attempt runs with the flag `false`;
exactly when it is classified as an unknown-tool failure, one retry runs
with the flag `true` and its outcome is final.  Returns the ordered list
of flags passed to the attempts together with the propagated outcome. -/
def runWithSchemaRefresh (attemptFn : Bool → AttemptResult) :
    List Bool × Except String AttemptResult :=
  let first := attemptFn false
  match classifyUnknownTool first with
  | some _ => ([false, true], finalizeAttempt (attemptFn true))
  | none => ([false], finalizeAttempt first)

theorem runWithSchemaRefresh_eq (attemptFn : Bool → AttemptResult) :
    runWithSchemaRefresh attemptFn =
      match classifyUnknownTool (attemptFn false) with
      | some _ => ([false, true], finalizeAttempt (attemptFn true))
      | none => ([false], finalizeAttempt (attemptFn false)) := rfl

/-- C2: the retry controller's first attempt always runs with
`refreshToolSchema=false`; it retries exactly once with
`refreshToolSchema=true` precisely when the first attempt is classified
unknown-tool; a first attempt whose top-level error is not unknown-tool is
never retried (even when the assistant text matches) and that error
propagates; and when the single retry also fails its error propagates with
no third attempt. -/
theorem schema_refresh_retry_algorithm :
    (∀ attemptFn : Bool → AttemptResult,
        (runWithSchemaRefresh attemptFn).1.head? = some false) ∧
    (∀ attemptFn : Bool → AttemptResult,
        (classifyUnknownTool (attemptFn false)).isSome →
        (runWithSchemaRefresh attemptFn).1 = [false, true] ∧
        (runWithSchemaRefresh attemptFn).2 = finalizeAttempt (attemptFn true)) ∧
    (∀ attemptFn : Bool → AttemptResult,
        classifyUnknownTool (attemptFn false) = none →
        (runWithSchemaRefresh attemptFn).1 = [false] ∧
        (runWithSchemaRefresh attemptFn).2 = finalizeAttempt (attemptFn false)) ∧
    (∀ (attemptFn : Bool → AttemptResult) (e : String),
        (attemptFn false).promptError = some e →
        matchesUnknownToolError e = false →
        (runWithSchemaRefresh attemptFn).1 = [false] ∧
        (runWithSchemaRefresh attemptFn).2 = Except.error e) ∧
    (∀ (attemptFn : Bool → AttemptResult) (e₂ : String),
        (classifyUnknownTool (attemptFn false)).isSome →
        (attemptFn true).promptError = some e₂ →
        (runWithSchemaRefresh attemptFn).1.length = 2 ∧
        (runWithSchemaRefresh attemptFn).2 = Except.error e₂) := by
  refine ⟨?_, ?_, ?_, ?_, ?_⟩
  · intro attemptFn
    rw [runWithSchemaRefresh_eq]
    rcases classifyUnknownTool (attemptFn false) with _ | s <;> rfl
  · intro attemptFn h
    rw [runWithSchemaRefresh_eq]
    rcases hc : classifyUnknownTool (attemptFn false) with _ | s
    · rw [hc] at h; simp at h
    · exact ⟨rfl, rfl⟩
  · intro attemptFn h
    rw [runWithSchemaRefresh_eq, h]
    exact ⟨rfl, rfl⟩
  · intro attemptFn e he hm
    have hc : classifyUnknownTool (attemptFn false) = none := by
      unfold classifyUnknownTool
      rw [he]
      simp [hm]
    rw [runWithSchemaRefresh_eq, hc]
    exact ⟨rfl, by simp [finalizeAttempt, he]⟩
  · intro attemptFn e₂ h he₂
    rw [runWithSchemaRefresh_eq]
    rcases hc : classifyUnknownTool (attemptFn false) with _ | s
    · rw [hc] at h; simp at h
    · exact ⟨rfl, by simp [finalizeAttempt, he₂]⟩

/-- C2 witness: the concrete scripted scenario of the test file — a first
attempt failing with `unknown tool: plugin_search` and a clean retry — is
retried exactly once with the refresh flag, and the run resolves. -/
theorem schema_refresh_retry_algorithm_witness :
    (runWithSchemaRefresh fun refresh =>
        if refresh then
          { promptError := none, lastAssistant := none }
        else
          { promptError := some "unknown tool: plugin_search",
            lastAssistant := none }).1 = [false, true] ∧
    (runWithSchemaRefresh fun refresh =>
        if refresh then
          { promptError := none, lastAssistant := none }
        else
          { promptError := some "unknown tool: plugin_search",
            lastAssistant := none }).2 =
      Except.ok { promptError := none, lastAssistant := none } :=
  ⟨(schema_refresh_retry_algorithm.2.1 _ (by rfl)).1,
    ((schema_refresh_retry_algorithm.2.1 _ (by rfl)).2.trans (by rfl))⟩

/-! ## C3, C6, C9: deferred Discord status registry and agent-event bridge -/

/-- `DISCORD_STATUS_DEFERRED_ERROR_RETRY_TTL_MS`: the cleanup TTL for
deferred entries after a retryable lifecycle error. -/
def DISCORD_STATUS_DEFERRED_ERROR_RETRY_TTL_MS : Nat := 45000

/-- A deferred Discord status entry (`DeferredDiscordStatusEntry`).  The
controller and the `onLifecycleStart` callback are opaque objects; the
`token` field models JS object identity (the `current !== entry` check of
the cleanup timer) and addresses commands sent to this entry's indicator.
`retryCleanupTimer` holds the armed cleanup deadline in clock
milliseconds, `none` when no timer is armed. -/
structure DeferredEntry where
  token : Nat
  runId : String
  channelId : String
  messageId : String
  removeAckAfterReply : Bool
  retryCleanupTimer : Option Nat
deriving DecidableEq, Repr

/-- `DEFERRED_DISCORD_STATUS_BY_RUN`, modelled as an association list keyed
by run identifier. -/
abbrev DeferredRegistry := List (String × DeferredEntry)

/-- `Map.prototype.get`. -/
def lookupRun (id : String) : DeferredRegistry → Option DeferredEntry
  | [] => none
  | (k, e) :: rest => if k = id then some e else lookupRun id rest

/-- `Map.prototype.delete`. -/
def eraseRun (id : String) (m : DeferredRegistry) : DeferredRegistry :=
  m.filter fun p => decide (p.1 ≠ id)

/-- `Map.prototype.set`: replace in place when the key exists, else append. -/
def setRun (id : String) (v : DeferredEntry) : DeferredRegistry → DeferredRegistry
  | [] => [(id, v)]
  | (k, e) :: rest => if k = id then (id, v) :: rest else (k, e) :: setRun id v rest

/-- The registry's single-entry-per-key invariant. -/
def regKeysDistinct (m : DeferredRegistry) : Prop :=
  m.Pairwise fun a b => a.1 ≠ b.1

/-- `unregisterDeferredDiscordStatus` (lines 147-155): remove and return
the entry when present, clearing its cleanup timer first; otherwise return
nothing and leave the registry alone. -/
def unregisterDeferredDiscordStatus (id : String) (m : DeferredRegistry) :
    Option DeferredEntry × DeferredRegistry :=
  match lookupRun id m with
  | none => (none, m)
  | some e => (some { e with retryCleanupTimer := none }, eraseRun id m)

/-- The module-level registry state: the map plus the idempotent
event-bridge installation flag (`deferredDiscordStatusBridgeReady`). -/
structure RegState where
  map : DeferredRegistry
  bridgeReady : Bool
deriving DecidableEq, Repr

/-- `registerDeferredDiscordStatus` (lines 247-261): a blank (empty after
trimming) run identifier returns immediately; otherwise the bridge is
installed, any prior entry for the trimmed identifier is unregistered
(clearing its timer), and the new entry is stored with a cleared timer. -/
def registerDeferredDiscordStatus (e : DeferredEntry) (st : RegState) : RegState :=
  let rid := jsTrim e.runId
  if rid = "" then st
  else
    { bridgeReady := true,
      map := setRun rid { e with runId := rid, retryCleanupTimer := none }
        (unregisterDeferredDiscordStatus rid st.map).2 }

/-- One event on the process-wide agent-event channel, as the bridge
reads it (`evt.runId`, `evt.stream`, `evt.data.phase`, `evt.data.name`). -/
structure AgentEvent where
  runId : String
  stream : String
  phase : String
  toolName : Option String

/-- A command the bridge issues to a deferred entry's status controller,
addressed by the entry's identity token. -/
inductive BridgeCmd
  | lifecycleStartCb (token : Nat)
  | setThinking (token : Nat)
  | settleError (token : Nat)
  | settleEnd (token : Nat)
  | setTool (token : Nat) (name : Option String)
deriving DecidableEq, Repr

/-- The bridge listener installed by `ensureDeferredDiscordStatusBridge`
(lines 195-245): look up the entry by run identifier (unknown identifiers
are a no-op); on `lifecycle/start` clear the cleanup timer and drive the
controller; on `lifecycle/error` arm the cleanup timer at `now + TTL` and
settle the error; on `lifecycle/end` unregister and settle; on
`tool/start` and `tool/update` forward the tool name.  Returns the new
registry and the commands issued. -/
def handleAgentEvent (now : Nat) (evt : AgentEvent) (m : DeferredRegistry) :
    DeferredRegistry × List BridgeCmd :=
  match lookupRun evt.runId m with
  | none => (m, [])
  | some entry =>
    if evt.stream = "lifecycle" then
      if evt.phase = "start" then
        (setRun evt.runId { entry with retryCleanupTimer := none } m,
          [BridgeCmd.lifecycleStartCb entry.token, BridgeCmd.setThinking entry.token])
      else if evt.phase = "error" then
        let deadline := now + DISCORD_STATUS_DEFERRED_ERROR_RETRY_TTL_MS
        (setRun evt.runId { entry with retryCleanupTimer := some deadline } m,
          [BridgeCmd.settleError entry.token])
      else if evt.phase = "end" then
        (eraseRun evt.runId m, [BridgeCmd.settleEnd entry.token])
      else (m, [])
    else if evt.stream = "tool" && (evt.phase = "start" || evt.phase = "update") then
      (m, [BridgeCmd.setTool entry.token evt.toolName])
    else (m, [])

/-- The callback of `scheduleDeferredDiscordRetryCleanup` (lines 157-167)
when its timer fires: delete the entry only when the registry still holds
the very same entry object (identity modelled by `token`). -/
def fireDeferredCleanup (id : String) (token : Nat) (m : DeferredRegistry) :
    DeferredRegistry :=
  match lookupRun id m with
  | none => m
  | some cur => if cur.token = token then eraseRun id m else m

theorem lookupRun_eraseRun_self (id : String) :
    ∀ m : DeferredRegistry, lookupRun id (eraseRun id m) = none := by
  intro m
  induction m with
  | nil => rfl
  | cons p rest ih =>
    by_cases h : p.1 = id
    · simpa [eraseRun, List.filter, h] using ih
    · simpa [eraseRun, List.filter, h, lookupRun] using ih

theorem eraseRun_of_lookupRun_none (id : String) :
    ∀ m : DeferredRegistry, lookupRun id m = none → eraseRun id m = m := by
  intro m
  induction m with
  | nil => intro _; rfl
  | cons p rest ih =>
    intro h
    rcases p with ⟨k, e⟩
    by_cases hk : k = id
    · simp [lookupRun, hk] at h
    · simp [lookupRun, hk] at h
      simp [eraseRun, List.filter, hk] at ih ⊢
      exact ih h

theorem lookupRun_setRun_self (id : String) (v : DeferredEntry) :
    ∀ m : DeferredRegistry, lookupRun id (setRun id v m) = some v := by
  intro m
  induction m with
  | nil => simp [setRun, lookupRun]
  | cons p rest ih =>
    rcases p with ⟨k, e⟩
    by_cases hk : k = id
    · simp [setRun, hk, lookupRun]
    · simpa [setRun, hk, lookupRun] using ih

theorem mem_setRun (id : String) (v : DeferredEntry) :
    ∀ (m : DeferredRegistry) (x : String × DeferredEntry),
      x ∈ setRun id v m → x ∈ m ∨ x = (id, v) := by
  intro m
  induction m with
  | nil =>
    intro x hx
    simp [setRun] at hx
    exact Or.inr hx
  | cons p rest ih =>
    intro x hx
    rcases p with ⟨k, e⟩
    by_cases hk : k = id
    · simp [setRun, hk] at hx
      rcases hx with hx | hx
      · exact Or.inr (by simp [hx])
      · exact Or.inl (List.mem_cons_of_mem _ hx)
    · simp [setRun, hk] at hx
      rcases hx with hx | hx
      · exact Or.inl (by simp [hx])
      · rcases ih x hx with h | h
        · exact Or.inl (List.mem_cons_of_mem _ h)
        · exact Or.inr h

theorem regKeysDistinct_eraseRun (id : String) (m : DeferredRegistry)
    (h : regKeysDistinct m) : regKeysDistinct (eraseRun id m) :=
  h.sublist (List.filter_sublist m)

theorem regKeysDistinct_setRun (id : String) (v : DeferredEntry) :
    ∀ m : DeferredRegistry, regKeysDistinct m → regKeysDistinct (setRun id v m) := by
  intro m
  induction m with
  | nil =>
    intro _
    simp [setRun, regKeysDistinct]
  | cons p rest ih =>
    intro h
    rcases p with ⟨k, e⟩
    rcases h with - | ⟨hhead, htail⟩
    by_cases hk : k = id
    · subst hk
      show List.Pairwise (fun a b => a.1 ≠ b.1) (setRun k v ((k, e) :: rest))
      simp only [setRun, if_pos rfl]
      exact List.Pairwise.cons hhead htail
    · show List.Pairwise (fun a b => a.1 ≠ b.1) (setRun id v ((k, e) :: rest))
      simp only [setRun, if_neg hk]
      refine List.Pairwise.cons ?_ (ih htail)
      intro x hx
      rcases mem_setRun id v rest x hx with hmem | hEq
      · exact hhead x hmem
      · subst hEq
        exact hk

theorem unregister_snd_eq (id : String) (m : DeferredRegistry) :
    (unregisterDeferredDiscordStatus id m).2 = eraseRun id m := by
  unfold unregisterDeferredDiscordStatus
  rcases h : lookupRun id m with _ | e
  · simp [eraseRun_of_lookupRun_none id m h]
  · rfl

/-- The entry with its cleanup timer armed at the TTL deadline, as
`scheduleDeferredDiscordRetryCleanup` leaves it. -/
def armCleanup (e : DeferredEntry) (now : Nat) : DeferredEntry :=
  { e with retryCleanupTimer := some (now + DISCORD_STATUS_DEFERRED_ERROR_RETRY_TTL_MS) }

/-- A concrete deferred entry used by closed witness statements. -/
def witnessEntry (tok : Nat) (rid : String) (timer : Option Nat) : DeferredEntry :=
  { token := tok, runId := rid, channelId := "chan", messageId := "msg",
    removeAckAfterReply := false, retryCleanupTimer := timer }

/-- C6: the deferred status registry keeps at most one entry per run
identifier: the distinct-keys invariant is preserved by `register` and
`unregister`; registering over an identifier already present first removes
the old entry (via `unregister`, which clears its timer) and then stores
the new one, so the new entry is what a lookup finds; unregistering
removes and returns the entry (timer cleared) when present and returns
nothing otherwise. -/
theorem deferred_registry_single_entry :
    (∀ (m : DeferredRegistry) (id : String),
        regKeysDistinct m →
        regKeysDistinct (unregisterDeferredDiscordStatus id m).2) ∧
    (∀ (st : RegState) (e : DeferredEntry),
        regKeysDistinct st.map →
        regKeysDistinct (registerDeferredDiscordStatus e st).map) ∧
    (∀ (st : RegState) (e : DeferredEntry),
        jsTrim e.runId ≠ "" →
        (registerDeferredDiscordStatus e st).map =
          setRun (jsTrim e.runId)
            { e with runId := jsTrim e.runId, retryCleanupTimer := none }
            (eraseRun (jsTrim e.runId) st.map) ∧
        lookupRun (jsTrim e.runId) (registerDeferredDiscordStatus e st).map =
          some { e with runId := jsTrim e.runId, retryCleanupTimer := none }) ∧
    (∀ (m : DeferredRegistry) (id : String) (e : DeferredEntry),
        lookupRun id m = some e →
        unregisterDeferredDiscordStatus id m =
          (some { e with retryCleanupTimer := none }, eraseRun id m) ∧
        lookupRun id (eraseRun id m) = none) ∧
    (∀ (m : DeferredRegistry) (id : String),
        lookupRun id m = none →
        unregisterDeferredDiscordStatus id m = (none, m)) := by
  have hreg : ∀ (st : RegState) (e : DeferredEntry), jsTrim e.runId ≠ "" →
      (registerDeferredDiscordStatus e st).map =
        setRun (jsTrim e.runId)
          { e with runId := jsTrim e.runId, retryCleanupTimer := none }
          (eraseRun (jsTrim e.runId) st.map) := by
    intro st e h
    simp only [registerDeferredDiscordStatus, if_neg h]
    rw [unregister_snd_eq]
  refine ⟨?_, ?_, ?_, ?_, ?_⟩
  · intro m id h
    rw [unregister_snd_eq]
    exact regKeysDistinct_eraseRun id m h
  · intro st e h
    by_cases hb : jsTrim e.runId = ""
    · simpa [registerDeferredDiscordStatus, hb] using h
    · rw [hreg st e hb]
      exact regKeysDistinct_setRun _ _ _ (regKeysDistinct_eraseRun _ _ h)
  · intro st e h
    refine ⟨hreg st e h, ?_⟩
    rw [hreg st e h]
    exact lookupRun_setRun_self _ _ _
  · intro m id e h
    constructor
    · unfold unregisterDeferredDiscordStatus
      rw [h]
    · exact lookupRun_eraseRun_self id m
  · intro m id h
    unfold unregisterDeferredDiscordStatus
    rw [h]

/-- C6 witness: unregistering a concretely registered run returns the
entry with its timer cleared and leaves the registry without it. -/
theorem deferred_registry_single_entry_witness :
    unregisterDeferredDiscordStatus "run-1"
        [("run-1", witnessEntry 1 "run-1" (some 99))] =
      (some { witnessEntry 1 "run-1" (some 99) with retryCleanupTimer := none },
        eraseRun "run-1" [("run-1", witnessEntry 1 "run-1" (some 99))]) :=
  (deferred_registry_single_entry.2.2.2.1 _ "run-1" _ (by rfl)).1

/-- C9: registering a deferred status entry whose run identifier trims to
the empty string is a complete no-op: the registry map is untouched and
the event-bridge installation flag is untouched. -/
theorem register_blank_run_id_noop :
    ∀ (st : RegState) (e : DeferredEntry),
      jsTrim e.runId = "" → registerDeferredDiscordStatus e st = st := by
  intro st e h
  simp [registerDeferredDiscordStatus, h]

/-- C9 witness: a whitespace-only run identifier leaves a nonempty
registry with an uninstalled bridge exactly as it was. -/
theorem register_blank_run_id_noop_witness :
    registerDeferredDiscordStatus (witnessEntry 2 "   " none)
        { map := [("keep", witnessEntry 1 "keep" none)], bridgeReady := false } =
      { map := [("keep", witnessEntry 1 "keep" none)], bridgeReady := false } :=
  register_blank_run_id_noop _ _ (by rfl)

/-- C3: a `lifecycle/error` event for a registered run arms that entry's
cleanup timer at `now + 45000` ms; if no subsequent event for the
identifier arrives before the timer fires, firing removes the entry from
the registry; a `lifecycle/start` event arriving once the entry has been
removed neither re-inserts it nor issues any indicator command; and for
unknown run identifiers every event leaves the registry unchanged and
issues no command. -/
theorem deferred_status_ttl_cleanup :
    (∀ (m : DeferredRegistry) (now : Nat) (id : String) (e : DeferredEntry),
        lookupRun id m = some e →
        handleAgentEvent now ⟨id, "lifecycle", "error", none⟩ m =
          (setRun id (armCleanup e now) m, [BridgeCmd.settleError e.token])) ∧
    (∀ (m : DeferredRegistry) (now : Nat) (id : String) (e : DeferredEntry),
        lookupRun id m = some e →
        lookupRun id
          (fireDeferredCleanup id e.token
            (handleAgentEvent now ⟨id, "lifecycle", "error", none⟩ m).1) = none) ∧
    (∀ (m : DeferredRegistry) (now : Nat) (id : String),
        lookupRun id m = none →
        handleAgentEvent now ⟨id, "lifecycle", "start", none⟩ m = (m, [])) ∧
    (∀ (m : DeferredRegistry) (now : Nat) (evt : AgentEvent),
        lookupRun evt.runId m = none →
        handleAgentEvent now evt m = (m, [])) := by
  have herror : ∀ (m : DeferredRegistry) (now : Nat) (id : String)
      (e : DeferredEntry), lookupRun id m = some e →
      handleAgentEvent now ⟨id, "lifecycle", "error", none⟩ m =
        (setRun id (armCleanup e now) m, [BridgeCmd.settleError e.token]) := by
    intro m now id e h
    simp [handleAgentEvent, h, armCleanup]
  refine ⟨herror, ?_, ?_, ?_⟩
  · intro m now id e h
    rw [herror m now id e h]
    simp only [fireDeferredCleanup, lookupRun_setRun_self, armCleanup]
    exact lookupRun_eraseRun_self id _
  · intro m now id h
    simp [handleAgentEvent, h]
  · intro m now evt h
    simp [handleAgentEvent, h]

/-- C3 witness: for a concretely registered run, the error event arms the
45-second timer (and issues the settle command), and the subsequent timer
fire removes the entry. -/
theorem deferred_status_ttl_cleanup_witness :
    handleAgentEvent 1000 ⟨"run-9", "lifecycle", "error", none⟩
        [("run-9", witnessEntry 7 "run-9" none)] =
      (setRun "run-9" (armCleanup (witnessEntry 7 "run-9" none) 1000)
          [("run-9", witnessEntry 7 "run-9" none)],
        [BridgeCmd.settleError 7]) ∧
    lookupRun "run-9"
        (fireDeferredCleanup "run-9" (witnessEntry 7 "run-9" none).token
          (handleAgentEvent 1000 ⟨"run-9", "lifecycle", "error", none⟩
            [("run-9", witnessEntry 7 "run-9" none)]).1) = none :=
  ⟨deferred_status_ttl_cleanup.1 _ 1000 "run-9" _ (by rfl),
    deferred_status_ttl_cleanup.2.1 _ 1000 "run-9" _ (by rfl)⟩

/-! ## Reaction status machine (`reaction-status-machine.ts`): C7, C10 -/

/-- The work emoji alphabet `DiscordWorkEmoji`
("👀" "🧠" "💻" "🌐" "🛠️" "⏳" "⚠️" "✅" "❌"). -/
inductive RMEmoji
  | eyes
  | brain
  | computer
  | web
  | tools
  | hourglass
  | warning
  | check
  | cross
deriving DecidableEq, Repr

def MIDDLE_STATE_DEBOUNCE_MS : Nat := 700
def STALL_SOFT_MS : Nat := 10000
def STALL_HARD_MS : Nat := 30000
def SUCCESS_HOLD_MS : Nat := 1500
def FAILURE_HOLD_MS : Nat := 4000

/-- `resolveToolStateEmoji`: classify a tool label into the web, code, or
generic tool emoji. -/
def resolveToolStateEmoji (toolText : Option String) : RMEmoji :=
  let text := lowerStr (toolText.getD "")
  if hasSub text "web_search" || hasSub text "web-search" || hasSub text "web_fetch" ||
      hasSub text "web-fetch" || hasSub text "browser" then
    RMEmoji.web
  else if hasSub text "exec" || hasSub text "read" || hasSub text "write" ||
      hasSub text "edit" || hasSub text "process" then
    RMEmoji.computer
  else
    RMEmoji.tools

/-- The closure state of `createDiscordReactionStatusMachine`.  Timers are
modelled by their armed deadlines (`none` = not armed); `errors` collects
the messages reported through `params.onError`; `callIdx` counts external
reaction calls and indexes the failure oracle. -/
structure RMState where
  currentEmoji : Option RMEmoji
  pendingMiddleEmoji : Option RMEmoji
  lastProgressAt : Nat
  disposed : Bool
  terminal : Bool
  debounceDeadline : Option Nat
  softDeadline : Option Nat
  hardDeadline : Option Nat
  clearDeadline : Option Nat
  errors : List String
  callIdx : Nat
deriving DecidableEq, Repr

/-- One external reaction call (`setReaction`/`clearReaction`): consume a
call index and ask the oracle whether that call fails. -/
def rmExtCall (g : Nat → Option String) (s : RMState) : RMState × Option String :=
  ({ s with callIdx := s.callIdx + 1 }, g s.callIdx)

/-- Report a failure through the `onError` callback. -/
def rmReport (msg : String) (s : RMState) : RMState :=
  { s with errors := s.errors ++ [msg] }

/-- `setEmojiImmediate`: skip when disposed or already showing the emoji;
otherwise clear the previous reaction (failure caught and reported), set
the new one (failure caught and reported), and record the new current
emoji.  The second component is the exception escaping the call — the
per-call `.catch` handlers make every branch return `none`. -/
def setEmojiImmediate (g : Nat → Option String) (emoji : RMEmoji) (s : RMState) :
    RMState × Option String :=
  if s.disposed || s.currentEmoji == some emoji then (s, none)
  else
    let s1 :=
      match s.currentEmoji with
      | some _ =>
        let r := rmExtCall g s
        match r.2 with
        | some e => rmReport ("discord status remove reaction failed: " ++ e) r.1
        | none => r.1
      | none => s
    let r2 := rmExtCall g s1
    let s2 :=
      match r2.2 with
      | some e => rmReport ("discord status set reaction failed: " ++ e) r2.1
      | none => r2.1
    ({ s2 with currentEmoji := some emoji }, none)

/-- `enqueue`: the single-worker lane; a task's escaping error is caught
and reported, never rethrown. -/
def rmEnqueue (task : RMState → RMState × Option String) (s : RMState) :
    RMState × Option String :=
  let r := task s
  match r.2 with
  | some e => (rmReport ("discord status reaction failed: " ++ e) r.1, none)
  | none => (r.1, none)

/-- `clearTimers`: disarm all four timers. -/
def rmClearTimers (s : RMState) : RMState :=
  { s with
      debounceDeadline := none, softDeadline := none,
      hardDeadline := none, clearDeadline := none }

/-- `scheduleStallChecks`: rearm the soft and hard stall timers relative
to `lastProgressAt` (`Math.max(0, window - elapsed)` is truncated
natural subtraction). -/
def scheduleStallChecks (now : Nat) (s : RMState) : RMState :=
  if s.disposed || s.terminal then s
  else
    let elapsed := now - s.lastProgressAt
    { s with
        softDeadline := some (now + (STALL_SOFT_MS - elapsed)),
        hardDeadline := some (now + (STALL_HARD_MS - elapsed)) }

/-- `markProgress`: refresh the progress timestamp and rearm both stall
timers. -/
def markProgress (now : Nat) (s : RMState) : RMState :=
  scheduleStallChecks now { s with lastProgressAt := now }

/-- `scheduleMiddleState`: debounce a middle-state icon request. -/
def scheduleMiddleState (now : Nat) (emoji : RMEmoji) (s : RMState) : RMState :=
  if s.disposed || s.terminal then s
  else if s.currentEmoji == some emoji || s.pendingMiddleEmoji == some emoji then s
  else
    { s with
        pendingMiddleEmoji := some emoji,
        debounceDeadline := some (now + MIDDLE_STATE_DEBOUNCE_MS) }

/-- The debounce timer's callback: consume the pending emoji and apply it
through the lane unless it became moot. -/
def fireDebounce (g : Nat → Option String) (s : RMState) : RMState × Option String :=
  let next := s.pendingMiddleEmoji
  let s1 := { s with pendingMiddleEmoji := none, debounceDeadline := none }
  match next with
  | none => (s1, none)
  | some nx =>
    if s1.disposed || s1.terminal || s1.currentEmoji == some nx then (s1, none)
    else rmEnqueue (setEmojiImmediate g nx) s1

/-- The soft-stall timer's callback (timer consumed on firing): request
the hourglass middle state when at least `STALL_SOFT_MS` elapsed since the
last progress signal.  The second component is the icon request issued. -/
def fireSoftStall (now : Nat) (s : RMState) : RMState × Option RMEmoji :=
  let s0 := { s with softDeadline := none }
  if s0.disposed || s0.terminal then (s0, none)
  else if STALL_SOFT_MS ≤ now - s0.lastProgressAt then
    (scheduleMiddleState now RMEmoji.hourglass s0, some RMEmoji.hourglass)
  else (s0, none)

/-- The hard-stall timer's callback: request the warning middle state when
at least `STALL_HARD_MS` elapsed since the last progress signal. -/
def fireHardStall (now : Nat) (s : RMState) : RMState × Option RMEmoji :=
  let s0 := { s with hardDeadline := none }
  if s0.disposed || s0.terminal then (s0, none)
  else if STALL_HARD_MS ≤ now - s0.lastProgressAt then
    (scheduleMiddleState now RMEmoji.warning s0, some RMEmoji.warning)
  else (s0, none)

/-- `finish`: enter the terminal state, discard the pending debounced
icon, disarm both stall timers, apply the terminal emoji through the
lane, and arm the disposal hold timer. -/
def rmFinish (g : Nat → Option String) (now : Nat) (emoji : RMEmoji)
    (holdMs : Nat) (s : RMState) : RMState × Option String :=
  if s.disposed || s.terminal then (s, none)
  else
    let s1 := { s with terminal := true }
    let s2 :=
      if s1.debounceDeadline.isSome then
        { s1 with debounceDeadline := none, pendingMiddleEmoji := none }
      else s1
    let s3 := { s2 with softDeadline := none, hardDeadline := none }
    let r := rmEnqueue (setEmojiImmediate g emoji) s3
    ({ r.1 with clearDeadline := some (now + holdMs) }, none)

/-- `start`: mark progress and show the eyes emoji. -/
def rmStart (g : Nat → Option String) (now : Nat) (s : RMState) :
    RMState × Option String :=
  if s.disposed then (s, none)
  else rmEnqueue (setEmojiImmediate g RMEmoji.eyes) (markProgress now s)

/-- `thinking`: progress signal plus debounced brain icon. -/
def rmThinking (now : Nat) (s : RMState) : RMState :=
  if s.disposed || s.terminal then s
  else scheduleMiddleState now RMEmoji.brain (markProgress now s)

/-- `tool`: progress signal plus debounced tool-kind icon. -/
def rmTool (now : Nat) (toolText : Option String) (s : RMState) : RMState :=
  if s.disposed || s.terminal then s
  else scheduleMiddleState now (resolveToolStateEmoji toolText) (markProgress now s)

/-- `progress`: bare progress signal. -/
def rmProgress (now : Nat) (s : RMState) : RMState :=
  if s.disposed || s.terminal then s
  else markProgress now s

/-- `succeed`: finish with the check emoji and the success hold. -/
def rmSucceed (g : Nat → Option String) (now : Nat) (s : RMState) :
    RMState × Option String :=
  rmFinish g now RMEmoji.check SUCCESS_HOLD_MS s

/-- `fail`: finish with the cross emoji and the failure hold. -/
def rmFail (g : Nat → Option String) (now : Nat) (s : RMState) :
    RMState × Option String :=
  rmFinish g now RMEmoji.cross FAILURE_HOLD_MS s

/-- `dispose`: idempotent; clear all timers, drop the current emoji and
remove its reaction through the lane (failure caught and reported). -/
def rmDispose (g : Nat → Option String) (s : RMState) : RMState × Option String :=
  if s.disposed then (s, none)
  else
    let s1 := rmClearTimers { s with disposed := true }
    match s1.currentEmoji with
    | none => ({ s1 with currentEmoji := none }, none)
    | some _ =>
      let s2 := { s1 with currentEmoji := none }
      rmEnqueue
        (fun st =>
          let r := rmExtCall g st
          match r.2 with
          | some e => (rmReport ("discord status clear reaction failed: " ++ e) r.1, none)
          | none => (r.1, none))
        s2

/-- The public operations of the reaction status machine together with
its timer callbacks. -/
inductive RMOp
  | start (now : Nat)
  | thinking (now : Nat)
  | tool (now : Nat) (toolText : Option String)
  | progress (now : Nat)
  | succeed (now : Nat)
  | fail (now : Nat)
  | dispose
  | fireDebounceTimer
  | fireSoftTimer (now : Nat)
  | fireHardTimer (now : Nat)

/-- One step of the reaction status machine; the second component is the
exception escaping to the caller. -/
def rmStep (g : Nat → Option String) : RMOp → RMState → RMState × Option String
  | RMOp.start now, s => rmStart g now s
  | RMOp.thinking now, s => (rmThinking now s, none)
  | RMOp.tool now txt, s => (rmTool now txt s, none)
  | RMOp.progress now, s => (rmProgress now s, none)
  | RMOp.succeed now, s => rmSucceed g now s
  | RMOp.fail now, s => rmFail g now s
  | RMOp.dispose, s => rmDispose g s
  | RMOp.fireDebounceTimer, s => fireDebounce g s
  | RMOp.fireSoftTimer now, s => ((fireSoftStall now s).1, none)
  | RMOp.fireHardTimer now, s => ((fireHardStall now s).1, none)


theorem setEmojiImmediate_preserves (g : Nat → Option String) (emoji : RMEmoji)
    (s : RMState) :
    (setEmojiImmediate g emoji s).1.terminal = s.terminal ∧
    (setEmojiImmediate g emoji s).1.softDeadline = s.softDeadline ∧
    (setEmojiImmediate g emoji s).1.hardDeadline = s.hardDeadline ∧
    (setEmojiImmediate g emoji s).1.pendingMiddleEmoji = s.pendingMiddleEmoji ∧
    (setEmojiImmediate g emoji s).1.debounceDeadline = s.debounceDeadline ∧
    (setEmojiImmediate g emoji s).1.clearDeadline = s.clearDeadline ∧
    (setEmojiImmediate g emoji s).1.disposed = s.disposed ∧
    (setEmojiImmediate g emoji s).1.lastProgressAt = s.lastProgressAt := by
  unfold setEmojiImmediate rmExtCall rmReport
  split
  · simp
  · rcases hc : s.currentEmoji with _ | prev <;>
      rcases hg : g s.callIdx with _ | e <;>
      rcases hg2 : g (s.callIdx + 1) with _ | e2 <;>
      simp [hc, hg, hg2]

theorem setEmojiImmediate_snd (g : Nat → Option String) (emoji : RMEmoji)
    (s : RMState) : (setEmojiImmediate g emoji s).2 = none := by
  unfold setEmojiImmediate rmExtCall rmReport
  split
  · rfl
  · rcases hc : s.currentEmoji with _ | prev <;>
      rcases hg : g s.callIdx with _ | e <;>
      rcases hg2 : g (s.callIdx + 1) with _ | e2 <;>
      simp [hc, hg, hg2]

theorem rmEnqueue_set_eq (g : Nat → Option String) (emoji : RMEmoji) (s : RMState) :
    rmEnqueue (setEmojiImmediate g emoji) s = ((setEmojiImmediate g emoji s).1, none) := by
  simp only [rmEnqueue, setEmojiImmediate_snd]

theorem markProgress_eq (now : Nat) (s : RMState)
    (hd : s.disposed = false) (ht : s.terminal = false) :
    markProgress now s =
      { s with
          lastProgressAt := now,
          softDeadline := some (now + STALL_SOFT_MS),
          hardDeadline := some (now + STALL_HARD_MS) } := by
  unfold markProgress scheduleStallChecks
  simp [hd, ht]

theorem markProgress_preserves (now : Nat) (s : RMState) :
    (markProgress now s).pendingMiddleEmoji = s.pendingMiddleEmoji ∧
    (markProgress now s).debounceDeadline = s.debounceDeadline ∧
    (markProgress now s).disposed = s.disposed ∧
    (markProgress now s).terminal = s.terminal ∧
    (markProgress now s).currentEmoji = s.currentEmoji := by
  unfold markProgress scheduleStallChecks
  split <;> simp

theorem scheduleMiddleState_preserves (now : Nat) (emoji : RMEmoji) (s : RMState) :
    (scheduleMiddleState now emoji s).softDeadline = s.softDeadline ∧
    (scheduleMiddleState now emoji s).hardDeadline = s.hardDeadline ∧
    (scheduleMiddleState now emoji s).disposed = s.disposed ∧
    (scheduleMiddleState now emoji s).terminal = s.terminal ∧
    (scheduleMiddleState now emoji s).currentEmoji = s.currentEmoji ∧
    (scheduleMiddleState now emoji s).lastProgressAt = s.lastProgressAt := by
  unfold scheduleMiddleState
  split
  · simp
  · split <;> simp

theorem rmFinish_fields (g : Nat → Option String) (now : Nat) (emoji : RMEmoji)
    (holdMs : Nat) (s : RMState)
    (hd : s.disposed = false) (ht : s.terminal = false) :
    (rmFinish g now emoji holdMs s).1.terminal = true ∧
    (rmFinish g now emoji holdMs s).1.softDeadline = none ∧
    (rmFinish g now emoji holdMs s).1.hardDeadline = none ∧
    (rmFinish g now emoji holdMs s).1.debounceDeadline = none ∧
    (rmFinish g now emoji holdMs s).1.pendingMiddleEmoji =
      (if s.debounceDeadline.isSome then none else s.pendingMiddleEmoji) := by
  unfold rmFinish
  by_cases hdb : s.debounceDeadline.isSome
  · simp [hd, ht, hdb, rmEnqueue_set_eq, setEmojiImmediate_preserves]
  · have hnone : s.debounceDeadline = none := by
      simpa using Option.not_isSome_iff_eq_none.mp hdb
    simp [hd, ht, hdb, hnone, rmEnqueue_set_eq, setEmojiImmediate_preserves]

/-- Reachability invariant of the reaction status machine: outside
disposed/terminal states a pending debounced icon always has the debounce
timer armed. -/
def rmInv (s : RMState) : Prop :=
  s.disposed = false → s.terminal = false →
    (s.pendingMiddleEmoji.isSome → s.debounceDeadline.isSome)

/-- C7: in a non-terminal, non-disposed state the soft-stall timer's
firing requests the hourglass icon exactly when at least 10 s elapsed
since the last progress timestamp, and the hard-stall timer's firing
requests the warning icon exactly when at least 30 s elapsed; every
progress signal (`thinking`, `tool`, generic `progress`) resets the
timestamp to `now` and rearms both timers at their full 10 s / 30 s
windows; and reaching a terminal phase (`succeed`/`fail`) cancels both
stall timers. -/
theorem stall_timer_schedule :
    (∀ (now : Nat) (s : RMState),
        s.disposed = false → s.terminal = false →
        STALL_SOFT_MS ≤ now - s.lastProgressAt →
        (fireSoftStall now s).2 = some RMEmoji.hourglass) ∧
    (∀ (now : Nat) (s : RMState),
        now - s.lastProgressAt < STALL_SOFT_MS →
        (fireSoftStall now s).2 = none) ∧
    (∀ (now : Nat) (s : RMState),
        s.disposed = false → s.terminal = false →
        STALL_HARD_MS ≤ now - s.lastProgressAt →
        (fireHardStall now s).2 = some RMEmoji.warning) ∧
    (∀ (now : Nat) (s : RMState),
        now - s.lastProgressAt < STALL_HARD_MS →
        (fireHardStall now s).2 = none) ∧
    (∀ (now : Nat) (s : RMState),
        s.disposed = false → s.terminal = false →
        (rmThinking now s).softDeadline = some (now + STALL_SOFT_MS) ∧
        (rmThinking now s).hardDeadline = some (now + STALL_HARD_MS) ∧
        (rmThinking now s).lastProgressAt = now) ∧
    (∀ (now : Nat) (txt : Option String) (s : RMState),
        s.disposed = false → s.terminal = false →
        (rmTool now txt s).softDeadline = some (now + STALL_SOFT_MS) ∧
        (rmTool now txt s).hardDeadline = some (now + STALL_HARD_MS)) ∧
    (∀ (now : Nat) (s : RMState),
        s.disposed = false → s.terminal = false →
        (rmProgress now s).softDeadline = some (now + STALL_SOFT_MS) ∧
        (rmProgress now s).hardDeadline = some (now + STALL_HARD_MS)) ∧
    (∀ (g : Nat → Option String) (now : Nat) (s : RMState),
        s.disposed = false → s.terminal = false →
        (rmSucceed g now s).1.terminal = true ∧
        (rmSucceed g now s).1.softDeadline = none ∧
        (rmSucceed g now s).1.hardDeadline = none) ∧
    (∀ (g : Nat → Option String) (now : Nat) (s : RMState),
        s.disposed = false → s.terminal = false →
        (rmFail g now s).1.terminal = true ∧
        (rmFail g now s).1.softDeadline = none ∧
        (rmFail g now s).1.hardDeadline = none) := by
  refine ⟨?_, ?_, ?_, ?_, ?_, ?_, ?_, ?_, ?_⟩
  · intro now s hd ht hle
    simp [fireSoftStall, hd, ht, hle]
  · intro now s hlt
    by_cases hA : (s.disposed || s.terminal) = true
    · simp [fireSoftStall, hA]
    · simp [fireSoftStall, hA, Nat.not_le_of_lt hlt]
  · intro now s hd ht hle
    simp [fireHardStall, hd, ht, hle]
  · intro now s hlt
    by_cases hA : (s.disposed || s.terminal) = true
    · simp [fireHardStall, hA]
    · simp [fireHardStall, hA, Nat.not_le_of_lt hlt]
  · intro now s hd ht
    simp [rmThinking, hd, ht, markProgress_eq now s hd ht, scheduleMiddleState_preserves]
  · intro now txt s hd ht
    simp [rmTool, hd, ht, markProgress_eq now s hd ht, scheduleMiddleState_preserves]
  · intro now s hd ht
    simp [rmProgress, hd, ht, markProgress_eq now s hd ht]
  · intro g now s hd ht
    have h := rmFinish_fields g now RMEmoji.check SUCCESS_HOLD_MS s hd ht
    exact ⟨h.1, h.2.1, h.2.2.1⟩
  · intro g now s hd ht
    have h := rmFinish_fields g now RMEmoji.cross FAILURE_HOLD_MS s hd ht
    exact ⟨h.1, h.2.1, h.2.2.1⟩

theorem rmInv_of_fields (s t : RMState)
    (h1 : t.pendingMiddleEmoji = s.pendingMiddleEmoji)
    (h2 : t.debounceDeadline = s.debounceDeadline)
    (h3 : t.disposed = s.disposed) (h4 : t.terminal = s.terminal)
    (hs : rmInv s) : rmInv t := by
  intro hd ht hp
  rw [h2]
  exact hs (h3 ▸ hd) (h4 ▸ ht) (h1 ▸ hp)

theorem rmInv_markProgress (now : Nat) (s : RMState) (hs : rmInv s) :
    rmInv (markProgress now s) := by
  have h := markProgress_preserves now s
  exact rmInv_of_fields s _ h.1 h.2.1 h.2.2.1 h.2.2.2.1 hs

theorem rmInv_scheduleMiddleState (now : Nat) (emoji : RMEmoji) (s : RMState)
    (hs : rmInv s) : rmInv (scheduleMiddleState now emoji s) := by
  unfold scheduleMiddleState
  split
  · exact hs
  · split
    · exact hs
    · intro hd ht hp
      simp

theorem rmDispose_disposed (g : Nat → Option String) (s : RMState) :
    (rmDispose g s).1.disposed = true := by
  unfold rmDispose rmClearTimers rmEnqueue rmExtCall rmReport
  by_cases hd : s.disposed = true
  · simp [hd]
  · rcases hc : s.currentEmoji with _ | prev
    · simp [hd, hc]
    · rcases hg : g s.callIdx with _ | e <;> simp [hd, hc, hg]

theorem rmFinish_terminal_or_same (g : Nat → Option String) (now : Nat)
    (emoji : RMEmoji) (holdMs : Nat) (s : RMState) :
    (rmFinish g now emoji holdMs s).1 = s ∨
    (rmFinish g now emoji holdMs s).1.terminal = true := by
  by_cases hg : (s.disposed || s.terminal) = true
  · left
    simp [rmFinish, hg]
  · right
    have hd : s.disposed = false := by revert hg; cases s.disposed <;> simp
    have ht : s.terminal = false := by revert hg; cases s.terminal <;> simp
    exact (rmFinish_fields g now emoji holdMs s hd ht).1

theorem rmInv_fireDebounce (g : Nat → Option String) (s : RMState) :
    rmInv (fireDebounce g s).1 := by
  have hpend : (fireDebounce g s).1.pendingMiddleEmoji = none := by
    unfold fireDebounce
    rcases hp : s.pendingMiddleEmoji with _ | nx
    · simp
    · by_cases hg : (s.disposed || s.terminal || s.currentEmoji == some nx) = true
      · simp [hg]
      · simp [hg, rmEnqueue_set_eq, setEmojiImmediate_preserves]
  intro _ _ hp2
  rw [hpend] at hp2
  simp at hp2

theorem rmInv_fireSoftStall (now : Nat) (s : RMState) (hs : rmInv s) :
    rmInv (fireSoftStall now s).1 := by
  have hs0 : rmInv { s with softDeadline := none } :=
    rmInv_of_fields s _ rfl rfl rfl rfl hs
  unfold fireSoftStall
  by_cases hg : (s.disposed || s.terminal) = true
  · simpa [hg] using hs0
  · by_cases hle : STALL_SOFT_MS ≤ now - s.lastProgressAt
    · simpa [hg, hle] using
        rmInv_scheduleMiddleState now RMEmoji.hourglass _ hs0
    · simpa [hg, hle] using hs0

theorem rmInv_fireHardStall (now : Nat) (s : RMState) (hs : rmInv s) :
    rmInv (fireHardStall now s).1 := by
  have hs0 : rmInv { s with hardDeadline := none } :=
    rmInv_of_fields s _ rfl rfl rfl rfl hs
  unfold fireHardStall
  by_cases hg : (s.disposed || s.terminal) = true
  · simpa [hg] using hs0
  · by_cases hle : STALL_HARD_MS ≤ now - s.lastProgressAt
    · simpa [hg, hle] using
        rmInv_scheduleMiddleState now RMEmoji.warning _ hs0
    · simpa [hg, hle] using hs0

theorem rmStep_rmInv (g : Nat → Option String) (op : RMOp) (s : RMState)
    (hs : rmInv s) : rmInv (rmStep g op s).1 := by
  cases op with
  | start now =>
    by_cases hd : s.disposed = true
    · simpa [rmStep, rmStart, hd] using hs
    · have h1 := setEmojiImmediate_preserves g RMEmoji.eyes (markProgress now s)
      have h2 := markProgress_preserves now s
      refine rmInv_of_fields s _ ?_ ?_ ?_ ?_ hs <;>
        simp [rmStep, rmStart, hd, rmEnqueue_set_eq, h1.2.2.2.1, h1.2.2.2.2.1,
          h1.2.2.2.2.2.2.1, h1.1, h2.1, h2.2.1, h2.2.2.1, h2.2.2.2.1]
  | thinking now =>
    by_cases hg : (s.disposed || s.terminal) = true
    · simpa [rmStep, rmThinking, hg] using hs
    · simpa [rmStep, rmThinking, hg] using
        rmInv_scheduleMiddleState now RMEmoji.brain _ (rmInv_markProgress now s hs)
  | tool now txt =>
    by_cases hg : (s.disposed || s.terminal) = true
    · simpa [rmStep, rmTool, hg] using hs
    · simpa [rmStep, rmTool, hg] using
        rmInv_scheduleMiddleState now (resolveToolStateEmoji txt) _
          (rmInv_markProgress now s hs)
  | progress now =>
    by_cases hg : (s.disposed || s.terminal) = true
    · simpa [rmStep, rmProgress, hg] using hs
    · simpa [rmStep, rmProgress, hg] using rmInv_markProgress now s hs
  | succeed now =>
    rcases rmFinish_terminal_or_same g now RMEmoji.check SUCCESS_HOLD_MS s with h | h
    · simpa [rmStep, rmSucceed, h] using hs
    · intro _ ht _
      rw [show (rmStep g (RMOp.succeed now) s).1 =
        (rmFinish g now RMEmoji.check SUCCESS_HOLD_MS s).1 from rfl] at ht
      rw [h] at ht
      exact Bool.noConfusion ht
  | fail now =>
    rcases rmFinish_terminal_or_same g now RMEmoji.cross FAILURE_HOLD_MS s with h | h
    · simpa [rmStep, rmFail, h] using hs
    · intro _ ht _
      rw [show (rmStep g (RMOp.fail now) s).1 =
        (rmFinish g now RMEmoji.cross FAILURE_HOLD_MS s).1 from rfl] at ht
      rw [h] at ht
      exact Bool.noConfusion ht
  | dispose =>
    intro hd _ _
    rw [show (rmStep g RMOp.dispose s).1 = (rmDispose g s).1 from rfl,
      rmDispose_disposed g s] at hd
    exact Bool.noConfusion hd
  | fireDebounceTimer =>
    exact rmInv_fireDebounce g s
  | fireSoftTimer now =>
    exact rmInv_fireSoftStall now s hs
  | fireHardTimer now =>
    exact rmInv_fireHardStall now s hs

/-- The machine state right after `createDiscordReactionStatusMachine`
runs: no emoji shown, nothing pending, no timer armed, the progress
timestamp at creation time `t`. -/
def rmInitState (t : Nat) : RMState :=
  { currentEmoji := none, pendingMiddleEmoji := none, lastProgressAt := t,
    disposed := false, terminal := false, debounceDeadline := none,
    softDeadline := none, hardDeadline := none, clearDeadline := none,
    errors := [], callIdx := 0 }

/-- C7 witness: from a fresh machine with last progress at 0, the soft
stall fires the hourglass request at 20 s, a thinking signal at 5 ms
rearms both timers at 5+10000 and 5+30000, and a succeed call cancels
both timers. -/
theorem stall_timer_schedule_witness :
    (fireSoftStall 20000 (rmInitState 0)).2 = some RMEmoji.hourglass ∧
    (rmThinking 5 (rmInitState 0)).softDeadline = some (5 + STALL_SOFT_MS) ∧
    (rmThinking 5 (rmInitState 0)).hardDeadline = some (5 + STALL_HARD_MS) ∧
    (rmSucceed (fun _ => none) 7 (rmInitState 0)).1.softDeadline = none ∧
    (rmSucceed (fun _ => none) 7 (rmInitState 0)).1.hardDeadline = none :=
  ⟨stall_timer_schedule.1 20000 (rmInitState 0) rfl rfl (by decide),
    (stall_timer_schedule.2.2.2.2.1 5 (rmInitState 0) rfl rfl).1,
    (stall_timer_schedule.2.2.2.2.1 5 (rmInitState 0) rfl rfl).2.1,
    (stall_timer_schedule.2.2.2.2.2.2.2.1 (fun _ => none) 7 (rmInitState 0) rfl rfl).2.1,
    (stall_timer_schedule.2.2.2.2.2.2.2.1 (fun _ => none) 7 (rmInitState 0) rfl rfl).2.2⟩

/-- C10: once `succeed` or `fail` actually runs (machine neither disposed
nor terminal, with the reachability fact that a pending debounced icon
implies an armed debounce timer), the machine is terminal, the pending
debounced icon is discarded and the debounce and both stall timers are
disarmed; that reachability fact is preserved by every operation; and in
a terminal state every `thinking`/`tool`/`progress`/`succeed`/`fail`
call is a strict no-op, the stall callbacks request no icon, and the
debounce callback (with nothing pending, as guaranteed after `finish`)
changes nothing — so no icon other than the terminal one is applied
until `dispose`. -/
theorem terminal_freezes_machine :
    (∀ (g : Nat → Option String) (now : Nat) (s : RMState),
        s.disposed = false → s.terminal = false →
        (s.pendingMiddleEmoji.isSome → s.debounceDeadline.isSome) →
        (rmSucceed g now s).1.terminal = true ∧
        (rmSucceed g now s).1.pendingMiddleEmoji = none ∧
        (rmSucceed g now s).1.debounceDeadline = none ∧
        (rmSucceed g now s).1.softDeadline = none ∧
        (rmSucceed g now s).1.hardDeadline = none) ∧
    (∀ (g : Nat → Option String) (now : Nat) (s : RMState),
        s.disposed = false → s.terminal = false →
        (s.pendingMiddleEmoji.isSome → s.debounceDeadline.isSome) →
        (rmFail g now s).1.terminal = true ∧
        (rmFail g now s).1.pendingMiddleEmoji = none ∧
        (rmFail g now s).1.debounceDeadline = none ∧
        (rmFail g now s).1.softDeadline = none ∧
        (rmFail g now s).1.hardDeadline = none) ∧
    (∀ (g : Nat → Option String) (op : RMOp) (s : RMState),
        rmInv s → rmInv (rmStep g op s).1) ∧
    (∀ (now : Nat) (s : RMState), s.terminal = true → rmThinking now s = s) ∧
    (∀ (now : Nat) (txt : Option String) (s : RMState),
        s.terminal = true → rmTool now txt s = s) ∧
    (∀ (now : Nat) (s : RMState), s.terminal = true → rmProgress now s = s) ∧
    (∀ (g : Nat → Option String) (now : Nat) (s : RMState),
        s.terminal = true → rmSucceed g now s = (s, none)) ∧
    (∀ (g : Nat → Option String) (now : Nat) (s : RMState),
        s.terminal = true → rmFail g now s = (s, none)) ∧
    (∀ (now : Nat) (s : RMState),
        s.terminal = true → (fireSoftStall now s).2 = none) ∧
    (∀ (now : Nat) (s : RMState),
        s.terminal = true → (fireHardStall now s).2 = none) ∧
    (∀ (g : Nat → Option String) (s : RMState),
        s.terminal = true → s.pendingMiddleEmoji = none →
        s.debounceDeadline = none → fireDebounce g s = (s, none)) := by
  have hfin : ∀ (g : Nat → Option String) (now : Nat) (emoji : RMEmoji)
      (holdMs : Nat) (s : RMState), s.disposed = false → s.terminal = false →
      (s.pendingMiddleEmoji.isSome → s.debounceDeadline.isSome) →
      (rmFinish g now emoji holdMs s).1.terminal = true ∧
      (rmFinish g now emoji holdMs s).1.pendingMiddleEmoji = none ∧
      (rmFinish g now emoji holdMs s).1.debounceDeadline = none ∧
      (rmFinish g now emoji holdMs s).1.softDeadline = none ∧
      (rmFinish g now emoji holdMs s).1.hardDeadline = none := by
    intro g now emoji holdMs s hd ht hinv
    have h := rmFinish_fields g now emoji holdMs s hd ht
    refine ⟨h.1, ?_, h.2.2.2.1, h.2.1, h.2.2.1⟩
    rw [h.2.2.2.2]
    by_cases hdb : s.debounceDeadline.isSome
    · simp [hdb]
    · have hpn : s.pendingMiddleEmoji = none := by
        rcases hp : s.pendingMiddleEmoji with _ | v
        · rfl
        · exact absurd (hinv (by simp [hp])) hdb
      simp [hdb, hpn]
  refine ⟨?_, ?_, rmStep_rmInv, ?_, ?_, ?_, ?_, ?_, ?_, ?_, ?_⟩
  · intro g now s hd ht hinv
    exact hfin g now RMEmoji.check SUCCESS_HOLD_MS s hd ht hinv
  · intro g now s hd ht hinv
    exact hfin g now RMEmoji.cross FAILURE_HOLD_MS s hd ht hinv
  · intro now s ht
    simp [rmThinking, ht]
  · intro now txt s ht
    simp [rmTool, ht]
  · intro now s ht
    simp [rmProgress, ht]
  · intro g now s ht
    simp [rmSucceed, rmFinish, ht]
  · intro g now s ht
    simp [rmFail, rmFinish, ht]
  · intro now s ht
    simp [fireSoftStall, ht]
  · intro now s ht
    simp [fireHardStall, ht]
  · intro g s ht hp hdb
    rcases s with ⟨ce, pme, lpa, d, t, dd, sd, hd2, cd, errs, ci⟩
    simp_all [fireDebounce]

/-- C10 witness: succeeding from a fresh machine yields a terminal state
with nothing pending and no timers, and `thinking` in a terminal state is
a strict no-op. -/
theorem terminal_freezes_machine_witness :
    (rmSucceed (fun _ => none) 7 (rmInitState 0)).1.terminal = true ∧
    rmThinking 3 (rmSucceed (fun _ => none) 7 (rmInitState 0)).1 =
      (rmSucceed (fun _ => none) 7 (rmInitState 0)).1 :=
  ⟨(terminal_freezes_machine.1 (fun _ => none) 7 (rmInitState 0) rfl rfl
      (by simp [rmInitState])).1,
    terminal_freezes_machine.2.2.2.1 3 _
      (terminal_freezes_machine.1 (fun _ => none) 7 (rmInitState 0) rfl rfl
        (by simp [rmInitState])).1⟩

/-! ## Status reaction controller of `message-handler.process.ts`: C8 -/

def DISCORD_STATUS_THINKING_EMOJI : String := "🤔"
def DISCORD_STATUS_TOOL_EMOJI : String := "🛠️"
def DISCORD_STATUS_CODING_EMOJI : String := "💻"
def DISCORD_STATUS_WEB_EMOJI : String := "🌐"
def DISCORD_STATUS_DONE_EMOJI : String := "✅"
def DISCORD_STATUS_ERROR_EMOJI : String := "❌"
def DISCORD_STATUS_STALL_SOFT_EMOJI : String := "⏳"
def DISCORD_STATUS_STALL_HARD_EMOJI : String := "⚠️"
def DISCORD_STATUS_DEBOUNCE_MS : Nat := 150
def DISCORD_STATUS_STALL_SOFT_MS : Nat := 10000
def DISCORD_STATUS_STALL_HARD_MS : Nat := 30000

def CODING_STATUS_TOOL_TOKENS : List String :=
  ["exec", "process", "read", "write", "edit", "session_status", "bash"]

def WEB_STATUS_TOOL_TOKENS : List String :=
  ["web_search", "web-search", "web_fetch", "web-fetch", "browser"]

/-- `resolveToolStatusEmoji`: classify the trimmed lower-cased tool name
into the web, coding, or generic tool status emoji. -/
def resolveToolStatusEmoji (toolName : Option String) : String :=
  let normalized := lowerStr (jsTrim (toolName.getD ""))
  if normalized = "" then DISCORD_STATUS_TOOL_EMOJI
  else if WEB_STATUS_TOOL_TOKENS.any (fun token => hasSub normalized token) then
    DISCORD_STATUS_WEB_EMOJI
  else if CODING_STATUS_TOOL_TOKENS.any (fun token => hasSub normalized token) then
    DISCORD_STATUS_CODING_EMOJI
  else DISCORD_STATUS_TOOL_EMOJI

/-- Construction parameters of `createDiscordStatusReactionController`
that the embedded operations read. -/
structure CtrlParams where
  enabled : Bool
  transitionModeFull : Bool
  initialEmoji : String

/-- The controller's closure state: displayed emoji, pending debounced
emoji and its deadline, the `finished` latch, the semantic phase, the
stall deadlines, the failures logged through `logAckFailure`, and the
external-call counter indexing the failure oracle. -/
structure CtrlState where
  activeEmoji : Option String
  pendingEmoji : Option String
  pendingDeadline : Option Nat
  finished : Bool
  semanticPhase : DiscordStatusSemanticPhase
  softDeadline : Option Nat
  hardDeadline : Option Nat
  failures : List String
  callIdx : Nat
deriving DecidableEq, Repr

def transitionsAllowed (p : CtrlParams) : Bool := p.enabled && p.transitionModeFull

/-- One external Discord REST call (`reactMessageDiscord` /
`removeReactionDiscord`). -/
def ctrlExtCall (g : Nat → Option String) (s : CtrlState) : CtrlState × Option String :=
  ({ s with callIdx := s.callIdx + 1 }, g s.callIdx)

/-- The controller's `enqueue`: run the work on the chain and catch any
escaping error, logging it via `logAckFailure`. -/
def ctrlEnqueue (task : CtrlState → CtrlState × Option String) (s : CtrlState) :
    CtrlState × Option String :=
  let r := task s
  match r.2 with
  | some e => ({ r.1 with failures := r.1.failures ++ [e] }, none)
  | none => (r.1, none)

/-- `hasReachedActivePhase`. -/
def hasReachedActivePhase (s : CtrlState) : Bool :=
  decide (phaseOrder DiscordStatusSemanticPhase.active ≤ phaseOrder s.semanticPhase)

/-- The body of `applyEmoji`'s queued work: set the new reaction, record
it as active, then remove the previous one.  Failures of the two external
calls escape the task (there is no local catch); they are caught by the
chain in `ctrlEnqueue`. -/
def applyEmojiTask (g : Nat → Option String) (p : CtrlParams) (emoji : String)
    (st : CtrlState) : CtrlState × Option String :=
  if !p.enabled || emoji = "" || st.activeEmoji == some emoji then (st, none)
  else
    let previousEmoji := st.activeEmoji
    let r1 := ctrlExtCall g st
    match r1.2 with
    | some e => (r1.1, some e)
    | none =>
      let st2 := { r1.1 with activeEmoji := some emoji }
      match previousEmoji with
      | some pe =>
        if pe ≠ emoji then ctrlExtCall g st2
        else (st2, none)
      | none => (st2, none)

/-- `applyEmoji`: the task queued on the controller's chain. -/
def applyEmoji (g : Nat → Option String) (p : CtrlParams) (emoji : String)
    (s : CtrlState) : CtrlState × Option String :=
  ctrlEnqueue (applyEmojiTask g p emoji) s

def clearPendingDebounce (s : CtrlState) : CtrlState :=
  { s with pendingEmoji := none, pendingDeadline := none }

def clearStallTimersCtrl (s : CtrlState) : CtrlState :=
  { s with softDeadline := none, hardDeadline := none }

def scheduleStallTimersCtrl (p : CtrlParams) (now : Nat) (s : CtrlState) : CtrlState :=
  if !(transitionsAllowed p) || s.finished then s
  else
    { s with
        softDeadline := some (now + DISCORD_STATUS_STALL_SOFT_MS),
        hardDeadline := some (now + DISCORD_STATUS_STALL_HARD_MS) }

/-- `requestEmoji`: guard stale soft-stall and initial-icon regressions
once the active phase is reached, then either apply immediately (clearing
the debounce) or arm the debounce timer with the request. -/
def requestEmoji (g : Nat → Option String) (p : CtrlParams) (now : Nat)
    (emoji : String) (immediate allowInitialRegression : Bool) (s : CtrlState) :
    CtrlState × Option String :=
  if !p.enabled || emoji = "" then (s, none)
  else if hasReachedActivePhase s && emoji == DISCORD_STATUS_STALL_SOFT_EMOJI then
    (s, none)
  else if hasReachedActivePhase s && emoji == p.initialEmoji &&
      !allowInitialRegression then
    (s, none)
  else if immediate then
    applyEmoji g p emoji (clearPendingDebounce s)
  else
    ({ s with
        pendingEmoji := some emoji,
        pendingDeadline := some (now + DISCORD_STATUS_DEBOUNCE_MS) }, none)

/-- The debounce timer's callback inside `requestEmoji`
(`allowInitialRegression` is captured from the arming call). -/
def ctrlFireDebounce (g : Nat → Option String) (p : CtrlParams)
    (allowInitialRegression : Bool) (s : CtrlState) : CtrlState × Option String :=
  let s1 := { s with pendingDeadline := none }
  let emojiToApply := s1.pendingEmoji
  let s2 := { s1 with pendingEmoji := none }
  match emojiToApply with
  | none => (s2, none)
  | some e =>
    if e = "" || s2.activeEmoji == some e then (s2, none)
    else if hasReachedActivePhase s2 && e == DISCORD_STATUS_STALL_SOFT_EMOJI then
      (s2, none)
    else if hasReachedActivePhase s2 && e == p.initialEmoji &&
        !allowInitialRegression then
      (s2, none)
    else applyEmoji g p e s2

/-- `setPhase` (used by `setThinking`/`setTool`): transition to `active`,
rearm the stall timers, debounce the icon. -/
def setPhase (g : Nat → Option String) (p : CtrlParams) (now : Nat)
    (emoji : String) (s : CtrlState) : CtrlState × Option String :=
  if !(transitionsAllowed p) || s.finished then (s, none)
  else
    let t := transitionSemanticPhase s.semanticPhase DiscordStatusSemanticPhase.active
    if !t.1 then (s, none)
    else
      requestEmoji g p now emoji false false
        (scheduleStallTimersCtrl p now { s with semanticPhase := t.2 })

/-- `setWaiting`: transition to `waiting`, disarm the stall timers, show
the waiting icon immediately. -/
def ctrlSetWaiting (g : Nat → Option String) (p : CtrlParams) (now : Nat)
    (s : CtrlState) : CtrlState × Option String :=
  if !(transitionsAllowed p) || s.finished then (s, none)
  else
    let t := transitionSemanticPhase s.semanticPhase DiscordStatusSemanticPhase.waiting
    if !t.1 then (s, none)
    else
      requestEmoji g p now DISCORD_STATUS_STALL_SOFT_EMOJI true false
        (clearStallTimersCtrl { s with semanticPhase := t.2 })

/-- `setTerminal` (used by `setDone`/`setError`). -/
def ctrlSetTerminal (g : Nat → Option String) (p : CtrlParams) (now : Nat)
    (emoji : String) (s : CtrlState) : CtrlState × Option String :=
  if !(transitionsAllowed p) then (s, none)
  else
    let t := transitionSemanticPhase s.semanticPhase DiscordStatusSemanticPhase.terminal
    if !t.1 then (s, none)
    else
      requestEmoji g p now emoji true false
        (clearStallTimersCtrl { s with semanticPhase := t.2, finished := true })

/-- `setRetryableError`. -/
def ctrlSetRetryableError (g : Nat → Option String) (p : CtrlParams) (now : Nat)
    (s : CtrlState) : CtrlState × Option String :=
  if !(transitionsAllowed p) || s.finished then (s, none)
  else
    let t := transitionSemanticPhase s.semanticPhase DiscordStatusSemanticPhase.active
    if !t.1 then (s, none)
    else
      requestEmoji g p now DISCORD_STATUS_ERROR_EMOJI true false
        (clearStallTimersCtrl { s with semanticPhase := t.2 })

/-- Insertion-ordered deduplication, the iteration order of the JS `Set`
of cleanup candidates. -/
def dedupKeepFirst : List String → List String
  | [] => []
  | x :: rest => x :: (dedupKeepFirst rest).filter (fun y => decide (y ≠ x))

def cleanupCandidates (p : CtrlParams) (active : Option String) : List String :=
  dedupKeepFirst [p.initialEmoji, active.getD "", DISCORD_STATUS_THINKING_EMOJI,
    DISCORD_STATUS_TOOL_EMOJI, DISCORD_STATUS_CODING_EMOJI, DISCORD_STATUS_WEB_EMOJI,
    DISCORD_STATUS_DONE_EMOJI, DISCORD_STATUS_ERROR_EMOJI,
    DISCORD_STATUS_STALL_SOFT_EMOJI, DISCORD_STATUS_STALL_HARD_EMOJI]

/-- The cleanup loop of `clear`: remove each candidate reaction, catching
and logging each failure individually (`try/catch` per candidate). -/
def clearLoop (g : Nat → Option String) : List String → CtrlState → CtrlState
  | [], st => st
  | emoji :: rest, st =>
    if emoji = "" then clearLoop g rest st
    else
      let r := ctrlExtCall g st
      match r.2 with
      | some e => clearLoop g rest { r.1 with failures := r.1.failures ++ [e] }
      | none => clearLoop g rest r.1

/-- `clear`: latch `finished`, disarm the timers, drop the debounce, then
remove every plausible reaction on the chain. -/
def ctrlClear (g : Nat → Option String) (p : CtrlParams) (s : CtrlState) :
    CtrlState × Option String :=
  if !p.enabled then (s, none)
  else
    let s1 := clearPendingDebounce (clearStallTimersCtrl { s with finished := true })
    ctrlEnqueue
      (fun st =>
        let candidates := cleanupCandidates p st.activeEmoji
        (clearLoop g candidates { st with activeEmoji := none }, none))
      s1

/-- `restoreInitial`: latch `finished`, disarm everything, and restore
the initial ack icon through the explicit regression path. -/
def ctrlRestoreInitial (g : Nat → Option String) (p : CtrlParams) (now : Nat)
    (s : CtrlState) : CtrlState × Option String :=
  if !p.enabled then (s, none)
  else
    requestEmoji g p now p.initialEmoji true true
      (clearPendingDebounce (clearStallTimersCtrl { s with finished := true }))

/-- `setQueued`. -/
def ctrlSetQueued (g : Nat → Option String) (p : CtrlParams) (now : Nat)
    (s : CtrlState) : CtrlState × Option String :=
  if !p.enabled || s.finished then (s, none)
  else if transitionsAllowed p then
    let t := transitionSemanticPhase s.semanticPhase DiscordStatusSemanticPhase.queued
    if !t.1 then (s, none)
    else
      requestEmoji g p now p.initialEmoji true false
        (scheduleStallTimersCtrl p now { s with semanticPhase := t.2 })
  else requestEmoji g p now p.initialEmoji true false s

/-- The controller's soft-stall timer callback. -/
def ctrlFireSoft (g : Nat → Option String) (p : CtrlParams) (now : Nat)
    (s : CtrlState) : CtrlState × Option String :=
  let s0 := { s with softDeadline := none }
  if s0.finished then (s0, none)
  else requestEmoji g p now DISCORD_STATUS_STALL_SOFT_EMOJI true false s0

/-- The controller's hard-stall timer callback. -/
def ctrlFireHard (g : Nat → Option String) (p : CtrlParams) (now : Nat)
    (s : CtrlState) : CtrlState × Option String :=
  let s0 := { s with hardDeadline := none }
  if s0.finished then (s0, none)
  else requestEmoji g p now DISCORD_STATUS_STALL_HARD_EMOJI true false s0

/-- The controller's public operations plus its timer callbacks. -/
inductive CtrlOp
  | setQueued (now : Nat)
  | setWaiting (now : Nat)
  | setThinking (now : Nat)
  | setTool (now : Nat) (toolName : Option String)
  | setRetryableError (now : Nat)
  | setDone (now : Nat)
  | setError (now : Nat)
  | clear
  | restoreInitial (now : Nat)
  | fireDebounceTimer (allowInitialRegression : Bool)
  | fireSoftTimer (now : Nat)
  | fireHardTimer (now : Nat)

/-- One step of the controller; the second component is the exception
escaping to the caller. -/
def ctrlStep (g : Nat → Option String) (p : CtrlParams) :
    CtrlOp → CtrlState → CtrlState × Option String
  | CtrlOp.setQueued now, s => ctrlSetQueued g p now s
  | CtrlOp.setWaiting now, s => ctrlSetWaiting g p now s
  | CtrlOp.setThinking now, s => setPhase g p now DISCORD_STATUS_THINKING_EMOJI s
  | CtrlOp.setTool now name, s => setPhase g p now (resolveToolStatusEmoji name) s
  | CtrlOp.setRetryableError now, s => ctrlSetRetryableError g p now s
  | CtrlOp.setDone now, s => ctrlSetTerminal g p now DISCORD_STATUS_DONE_EMOJI s
  | CtrlOp.setError now, s => ctrlSetTerminal g p now DISCORD_STATUS_ERROR_EMOJI s
  | CtrlOp.clear, s => ctrlClear g p s
  | CtrlOp.restoreInitial now, s => ctrlRestoreInitial g p now s
  | CtrlOp.fireDebounceTimer reg, s => ctrlFireDebounce g p reg s
  | CtrlOp.fireSoftTimer now, s => ctrlFireSoft g p now s
  | CtrlOp.fireHardTimer now, s => ctrlFireHard g p now s

theorem rmEnqueue_snd (task : RMState → RMState × Option String) (s : RMState) :
    (rmEnqueue task s).2 = none := by
  unfold rmEnqueue
  rcases h : (task s).2 with _ | e <;> simp [h]

theorem rmStep_no_throw (g : Nat → Option String) (op : RMOp) (s : RMState) :
    (rmStep g op s).2 = none := by
  cases op with
  | start now =>
    show (rmStart g now s).2 = none
    unfold rmStart
    split
    · rfl
    · exact rmEnqueue_snd _ _
  | thinking now => rfl
  | tool now txt => rfl
  | progress now => rfl
  | succeed now =>
    by_cases hg : (s.disposed || s.terminal) = true <;>
      simp [rmStep, rmSucceed, rmFinish, hg]
  | fail now =>
    by_cases hg : (s.disposed || s.terminal) = true <;>
      simp [rmStep, rmFail, rmFinish, hg]
  | dispose =>
    show (rmDispose g s).2 = none
    unfold rmDispose
    by_cases hd : s.disposed = true
    · simp [hd]
    · rcases hc : (rmClearTimers { s with disposed := true }).currentEmoji with _ | prev
      · simp [hd, hc]
      · simp [hd, hc, rmEnqueue_snd]
  | fireDebounceTimer =>
    show (fireDebounce g s).2 = none
    unfold fireDebounce
    rcases hp : s.pendingMiddleEmoji with _ | nx
    · simp [hp]
    · by_cases hg : (s.disposed || s.terminal || s.currentEmoji == some nx) = true
      · simp [hp, hg]
      · simp [hp, hg, rmEnqueue_snd]
  | fireSoftTimer now => rfl
  | fireHardTimer now => rfl

theorem ctrlEnqueue_snd (task : CtrlState → CtrlState × Option String)
    (s : CtrlState) : (ctrlEnqueue task s).2 = none := by
  unfold ctrlEnqueue
  rcases h : (task s).2 with _ | e <;> simp [h]

theorem applyEmoji_snd (g : Nat → Option String) (p : CtrlParams) (emoji : String)
    (s : CtrlState) : (applyEmoji g p emoji s).2 = none :=
  ctrlEnqueue_snd _ _

theorem requestEmoji_snd (g : Nat → Option String) (p : CtrlParams) (now : Nat)
    (emoji : String) (immediate allowInitialRegression : Bool) (s : CtrlState) :
    (requestEmoji g p now emoji immediate allowInitialRegression s).2 = none := by
  unfold requestEmoji
  split
  · rfl
  · split
    · rfl
    · split
      · rfl
      · split
        · exact applyEmoji_snd _ _ _ _
        · rfl

theorem ctrlStep_no_throw (g : Nat → Option String) (p : CtrlParams) (op : CtrlOp)
    (s : CtrlState) : (ctrlStep g p op s).2 = none := by
  cases op with
  | setQueued now =>
    show (ctrlSetQueued g p now s).2 = none
    unfold ctrlSetQueued
    split
    · rfl
    · split
      · dsimp only
        split
        · rfl
        · exact requestEmoji_snd _ _ _ _ _ _ _
      · exact requestEmoji_snd _ _ _ _ _ _ _
  | setWaiting now =>
    show (ctrlSetWaiting g p now s).2 = none
    unfold ctrlSetWaiting
    split
    · rfl
    · dsimp only
      split
      · rfl
      · exact requestEmoji_snd _ _ _ _ _ _ _
  | setThinking now =>
    show (setPhase g p now DISCORD_STATUS_THINKING_EMOJI s).2 = none
    unfold setPhase
    split
    · rfl
    · dsimp only
      split
      · rfl
      · exact requestEmoji_snd _ _ _ _ _ _ _
  | setTool now name =>
    show (setPhase g p now (resolveToolStatusEmoji name) s).2 = none
    unfold setPhase
    split
    · rfl
    · dsimp only
      split
      · rfl
      · exact requestEmoji_snd _ _ _ _ _ _ _
  | setRetryableError now =>
    show (ctrlSetRetryableError g p now s).2 = none
    unfold ctrlSetRetryableError
    split
    · rfl
    · dsimp only
      split
      · rfl
      · exact requestEmoji_snd _ _ _ _ _ _ _
  | setDone now =>
    show (ctrlSetTerminal g p now DISCORD_STATUS_DONE_EMOJI s).2 = none
    unfold ctrlSetTerminal
    split
    · rfl
    · dsimp only
      split
      · rfl
      · exact requestEmoji_snd _ _ _ _ _ _ _
  | setError now =>
    show (ctrlSetTerminal g p now DISCORD_STATUS_ERROR_EMOJI s).2 = none
    unfold ctrlSetTerminal
    split
    · rfl
    · dsimp only
      split
      · rfl
      · exact requestEmoji_snd _ _ _ _ _ _ _
  | clear =>
    show (ctrlClear g p s).2 = none
    unfold ctrlClear
    split
    · rfl
    · exact ctrlEnqueue_snd _ _
  | restoreInitial now =>
    show (ctrlRestoreInitial g p now s).2 = none
    unfold ctrlRestoreInitial
    split
    · rfl
    · exact requestEmoji_snd _ _ _ _ _ _ _
  | fireDebounceTimer reg =>
    show (ctrlFireDebounce g p reg s).2 = none
    unfold ctrlFireDebounce
    rcases hp : s.pendingEmoji with _ | e
    · simp [hp]
    · simp only [hp]
      split
      · rfl
      · split
        · rfl
        · split
          · rfl
          · exact applyEmoji_snd _ _ _ _
  | fireSoftTimer now =>
    show (ctrlFireSoft g p now s).2 = none
    unfold ctrlFireSoft
    dsimp only
    split
    · rfl
    · exact requestEmoji_snd _ _ _ _ _ _ _
  | fireHardTimer now =>
    show (ctrlFireHard g p now s).2 = none
    unfold ctrlFireHard
    dsimp only
    split
    · rfl
    · exact requestEmoji_snd _ _ _ _ _ _ _

/-- The controller's initial closure state. -/
def ctrlInitState : CtrlState :=
  { activeEmoji := none, pendingEmoji := none, pendingDeadline := none,
    finished := false, semanticPhase := DiscordStatusSemanticPhase.queued,
    softDeadline := none, hardDeadline := none, failures := [], callIdx := 0 }

/-- C8: every failure from an external indicator call
(`setReaction`/`clearReaction` in the reaction status machine,
`reactMessageDiscord`/`removeReactionDiscord` in the status reaction
controller) is caught inside the status machinery: no operation of either
machine — including the timer callbacks — ever lets an exception escape to
its caller, for every failure oracle, every parameterisation, and every
state, so both machines keep processing subsequent requests; and a failing
external call is reported into the error log (`onError` / `logAckFailure`)
rather than thrown. -/
theorem status_calls_never_throw :
    (∀ (g : Nat → Option String) (op : RMOp) (s : RMState),
        (rmStep g op s).2 = none) ∧
    (∀ (g : Nat → Option String) (p : CtrlParams) (op : CtrlOp) (s : CtrlState),
        (ctrlStep g p op s).2 = none) ∧
    (∀ (g : Nat → Option String) (emoji : RMEmoji) (s : RMState) (e : String),
        s.disposed = false → s.currentEmoji = none → g s.callIdx = some e →
        (setEmojiImmediate g emoji s).1.errors =
          s.errors ++ ["discord status set reaction failed: " ++ e]) ∧
    (∀ (g : Nat → Option String) (p : CtrlParams) (emoji : String)
        (s : CtrlState) (e : String),
        p.enabled = true → emoji ≠ "" → s.activeEmoji = none →
        g s.callIdx = some e →
        (applyEmoji g p emoji s).1.failures = s.failures ++ [e]) := by
  refine ⟨rmStep_no_throw, ctrlStep_no_throw, ?_, ?_⟩
  · intro g emoji s e hd hc hg
    simp [setEmojiImmediate, rmExtCall, rmReport, hd, hc, hg]
  · intro g p emoji s e hp he ha hg
    simp [applyEmoji, ctrlEnqueue, applyEmojiTask, ctrlExtCall, hp, he, ha, hg]

/-- C8 witness: with an oracle failing every call, a concrete controller
`setQueued` and a concrete machine `start` both return without an escaping
exception, and the failing set-reaction call from a fresh machine is
reported in the error log. -/
theorem status_calls_never_throw_witness :
    (rmStep (fun _ => some "boom") (RMOp.start 0) (rmInitState 0)).2 = none ∧
    (ctrlStep (fun _ => some "boom")
        { enabled := true, transitionModeFull := true, initialEmoji := "👀" }
        (CtrlOp.setQueued 0) ctrlInitState).2 = none ∧
    (setEmojiImmediate (fun _ => some "boom") RMEmoji.brain (rmInitState 0)).1.errors =
      ["discord status set reaction failed: " ++ "boom"] ∧
    (applyEmoji (fun _ => some "boom")
        { enabled := true, transitionModeFull := true, initialEmoji := "👀" }
        "🤔" ctrlInitState).1.failures = ["boom"] :=
  ⟨status_calls_never_throw.1 (fun _ => some "boom") (RMOp.start 0) (rmInitState 0),
    status_calls_never_throw.2.1 (fun _ => some "boom") _ (CtrlOp.setQueued 0)
      ctrlInitState,
    status_calls_never_throw.2.2.1 (fun _ => some "boom") RMEmoji.brain
      (rmInitState 0) "boom" rfl rfl rfl,
    status_calls_never_throw.2.2.2 (fun _ => some "boom") _ "🤔" ctrlInitState
      "boom" rfl (by decide) rfl rfl⟩
